import Mathlib

/-!
Verification of the `twat-text` repository: a shallow embedding of
`src/twat_text/twat_text.py` (the `Config` dataclass, `process_data`, and the
command-line config parsing in `main`) and of `scripts/build.py` (the
`BuildManager` pipeline orchestrator), together with theorems settling the
spec's claims about them.

Python values are embedded as explicit inductive types; Python's `dict` is a
`List` of key/value pairs; a raised exception is an `Except.error`; the
process-wide logger severity is threaded as explicit state.  Each external
subprocess invoked by the build script is opaque: it is modelled by the
boolean success/failure outcome the script observes, supplied as an input.
-/

/-- An arbitrary Python value (`Any`), as far as this repository inspects one. -/
inductive PyValue where
  | str (s : String)
  | int (i : Int)
  | float (f : Float)
  | list (xs : List PyValue)
  | dict (xs : List (String × PyValue))
  | none

/-- The annotated type of `Config.value` in the source: `str | int | float`. -/
inductive ConfigValue where
  | str (s : String)
  | int (i : Int)
  | float (f : Float)

/-- Embedding of the `Config` dataclass (`twat_text.py` lines 20-26):
fields `name : str`, `value : str | int | float`,
`options : dict[str, Any] | None = None`. -/
structure Config where
  name : String
  value : ConfigValue
  options : Option (List (String × PyValue))

/-- Calling the dataclass constructor with only `name` and `value`:
the generated `__init__` defaults `options` to `None`. -/
def Config.ofNameValue (name : String) (value : ConfigValue) : Config :=
  ⟨name, value, Option.none⟩

/-- The process-wide logger state: its effective severity level
(Python `logging` numeric levels). -/
structure LogState where
  level : Nat
deriving DecidableEq

/-- Python `logging.DEBUG`. -/
def DEBUG_LEVEL : Nat := 10

/-- Python `logging.INFO`, the level installed by `logging.basicConfig`
at import time (`twat_text.py` lines 14-16). -/
def INFO_LEVEL : Nat := 20

/-- Embedding of `process_data(data, config=None, *, debug=False)`
(`twat_text.py` lines 29-55).  The logger state is passed and returned
explicitly; the `ValueError` becomes an `Except.error` carrying the message.
The `config` argument is accepted and (as in the source) never read.
The returned dictionary is the placeholder empty `dict[str, Any]`. -/
def process_data (data : List PyValue) (config : Option Config) (debug : Bool)
    (st : LogState) : Except String (List (String × PyValue)) × LogState :=
  -- if debug: logger.setLevel(logging.DEBUG); logger.debug(...)
  let st := if debug then { st with level := DEBUG_LEVEL } else st
  -- if not data: raise ValueError("Input data cannot be empty")
  if data.isEmpty then
    (Except.error "Input data cannot be empty", st)
  else
    -- result: dict[str, Any] = {}; return result
    (Except.ok [], st)

/-- Python's `str.isspace` over the ASCII whitespace characters stripped by
`str.strip()` (the repository only ever strips ASCII command-line text). -/
def pyIsSpace (c : Char) : Bool :=
  c == ' ' || c == '\t' || c == '\n' || c == '\r' || c == '\x0b' || c == '\x0c'

/-- Python `str.strip()` on a character list: drop whitespace from both ends. -/
def pyStripChars (cs : List Char) : List Char :=
  ((cs.dropWhile pyIsSpace).reverse.dropWhile pyIsSpace).reverse

/-- Python `str.strip()`. -/
def pyStrip (s : String) : String :=
  String.mk (pyStripChars s.toList)

/-- Python `s.split(sep, 1)` when it yields two parts: split at the first
occurrence of `sep`, returning the text before it and the text after it;
`none` when `sep` does not occur (in the source this makes the two-name
unpacking raise `ValueError`). -/
def splitFirst (sep : Char) : List Char → Option (List Char × List Char)
  | [] => Option.none
  | c :: rest =>
    if c = sep then Option.some ([], rest)
    else
      match splitFirst sep rest with
      | Option.some p => Option.some (c :: p.1, p.2)
      | Option.none => Option.none

/-- Embedding of the `--config` parsing in `main` (`twat_text.py` lines
108-113): `name, value = args.config.split("=", 1)` followed by
`Config(name=name.strip(), value=value.strip())`; `none` models the
`ValueError` branch (no `=` in the argument). -/
def parse_config_arg (arg : String) : Option Config :=
  match splitFirst '=' arg.toList with
  | Option.some p =>
    Option.some ⟨pyStrip (String.mk p.1), ConfigValue.str (pyStrip (String.mk p.2)),
      Option.none⟩
  | Option.none => Option.none

/-- The built-in default config of `main` (`twat_text.py` line 115). -/
def default_config : Config :=
  ⟨"default", ConfigValue.str "test", Option.some [("key", PyValue.str "value")]⟩

/-- The config-selection logic of `main` (`twat_text.py` lines 106-115):
a missing or falsy (empty) `--config` argument selects the built-in default;
otherwise the argument is parsed, and a malformed argument is an error
(`main` logs "Invalid config format. Use name=value" and returns 1). -/
def main_config (configArg : Option String) : Except String Config :=
  match configArg with
  | Option.some s =>
    if s.isEmpty then Except.ok default_config
    else
      match parse_config_arg s with
      | Option.some c => Except.ok c
      | Option.none => Except.error "Invalid config format. Use name=value"
  | Option.none => Except.ok default_config

/-! ## The build-pipeline orchestrator (`scripts/build.py`, class `BuildManager`)

Each stage body is a chain of subprocess invocations; the script only
observes each subprocess's boolean success.  `run_full_pipeline` is embedded
over the boolean outcome of each of its five stage methods, and additionally
returns the ordered list of stages it actually invoked, which is what the
skip/fail-fast claims are about. -/

/-- The five stages `run_full_pipeline` can invoke (`build.py` lines 330-366):
`clean_build`, `check_version`, `run_linting`, `run_tests`, `build_package`. -/
inductive Stage where
  | clean
  | version
  | lint
  | test
  | build
deriving DecidableEq

/-- The keyword options of `run_full_pipeline` (`build.py` lines 330-332). -/
structure PipelineFlags where
  skip_clean : Bool
  skip_lint : Bool
  skip_test : Bool
  skip_build : Bool
  release_mode : Bool
deriving DecidableEq

/-- The boolean outcome each stage method would report if invoked
(each method's result is determined by external subprocesses). -/
structure StageResults where
  clean : Bool
  version : Bool
  lint : Bool
  test : Bool
  build : Bool
deriving DecidableEq

/-- Embedding of `BuildManager.run_full_pipeline` (`build.py` lines 330-366):
clean (unless skipped), version check, lint (unless skipped), test (unless
skipped), build (unless skipped), each returning `False` from the method as
soon as an invoked stage fails.  Returns the method's boolean result paired
with the ordered trace of stages invoked.  `release_mode` only selects extra
log lines on the success path and cannot affect the result or the trace. -/
def run_full_pipeline (f : PipelineFlags) (r : StageResults) :
    Bool × List Stage :=
  -- if not skip_clean: if not self.clean_build(): return False
  let t := if f.skip_clean then ([] : List Stage) else [Stage.clean]
  if !f.skip_clean && !r.clean then (false, t)
  else
    -- if not self.check_version(): return False
    let t := t ++ [Stage.version]
    if !r.version then (false, t)
    else
      -- if not skip_lint: if not self.run_linting(): return False
      let t := if f.skip_lint then t else t ++ [Stage.lint]
      if !f.skip_lint && !r.lint then (false, t)
      else
        -- if not skip_test: if not self.run_tests(): return False
        let t := if f.skip_test then t else t ++ [Stage.test]
        if !f.skip_test && !r.test then (false, t)
        else
          -- if not skip_build: if not self.build_package(): return False
          let t := if f.skip_build then t else t ++ [Stage.build]
          if !f.skip_build && !r.build then (false, t)
          else (true, t)

/-- The command-line flags of `build.py` that feed `run_full_pipeline`
(`build.py` lines 400-428 and 458-465). -/
inductive PipelineFlag where
  | noClean
  | noLint
  | noTest
  | noBuild
  | releaseFlag
deriving DecidableEq

/-- Setting exactly one command-line flag of the `all` command
(`--no-clean`, `--no-lint`, `--no-test`, `--no-build`, `--release`). -/
def setFlag : PipelineFlag → PipelineFlags
  | PipelineFlag.noClean => ⟨true, false, false, false, false⟩
  | PipelineFlag.noLint => ⟨false, true, false, false, false⟩
  | PipelineFlag.noTest => ⟨false, false, true, false, false⟩
  | PipelineFlag.noBuild => ⟨false, false, false, true, false⟩
  | PipelineFlag.releaseFlag => ⟨false, false, false, false, true⟩

/-- Every stage method reporting success. -/
def allOkResults : StageResults := ⟨true, true, true, true, true⟩

/-- The subprocess outcomes observed inside `BuildManager.run_tests`
(`build.py` lines 150-191): the `uv pip install .[test]` step, the pytest
run with coverage, and the benchmark pytest run. -/
structure TestsEnv where
  deps_install : Bool
  pytest : Bool
  benchmark : Bool
deriving DecidableEq

/-- Embedding of `BuildManager.run_tests` (`build.py` lines 150-191).
Returns the method's boolean result paired with whether the benchmark
warning ("Benchmark tests failed or not available") was logged: a failed
benchmark run only logs that warning, the method still returns `True`. -/
def run_tests (e : TestsEnv) : Bool × Bool :=
  if !e.deps_install then (false, false)
  else if !e.pytest then (false, false)
  else if e.benchmark then (true, false)
  else (true, true)

/-- End-of-pattern test for Python `re`'s `$` outside MULTILINE mode:
it matches at the end of the string or just before a trailing newline. -/
def atLineEnd (cs : List Char) : Bool :=
  match cs with
  | [] => true
  | ['\n'] => true
  | _ => false

/-- Consume the regex piece `[0-9]+`: fails on no leading digit, otherwise
drops the (maximal) run of digits.  Maximal munch is equivalent to the
regex's backtracking here because no character that may follow a digit run
in the pattern is itself a digit. -/
def chompDigits (cs : List Char) : Option (List Char) :=
  match cs.takeWhile Char.isDigit with
  | [] => Option.none
  | _ => Option.some (cs.dropWhile Char.isDigit)

/-- Consume a literal `.` (the regex piece `\.`). -/
def chompDot : List Char → Option (List Char)
  | '.' :: rest => Option.some rest
  | _ => Option.none

/-- The regex tail `(-[a-zA-Z0-9]+)?$`: either the end of the pattern
directly, or `-` followed by a nonempty alphanumeric run and then the end. -/
def matchSuffixPart (cs : List Char) : Bool :=
  match cs with
  | '-' :: rest =>
    match rest.takeWhile Char.isAlphanum with
    | [] => false
    | _ => atLineEnd (rest.dropWhile Char.isAlphanum)
  | _ => atLineEnd cs

/-- Embedding of the version-format check in `create_release_tag`
(`build.py` line 275): Python
`re.match(r'^v?[0-9]+\.[0-9]+\.[0-9]+(-[a-zA-Z0-9]+)?$', version)`
viewed as a boolean. -/
def matchVersionFormat (s : String) : Bool :=
  let cs := s.toList
  -- v?
  let cs := match cs with
    | 'v' :: rest => rest
    | _ => cs
  match chompDigits cs with
  | Option.none => false
  | Option.some cs =>
    match chompDot cs with
    | Option.none => false
    | Option.some cs =>
      match chompDigits cs with
      | Option.none => false
      | Option.some cs =>
        match chompDot cs with
        | Option.none => false
        | Option.some cs =>
          match chompDigits cs with
          | Option.none => false
          | Option.some cs => matchSuffixPart cs

/-- Python `s.split(sep)` for a single-character separator (as used on the
`git tag -l` output with `'\n'`): the list of maximal separator-free runs,
one more run than separators, empty runs included. -/
def splitOnChar (sep : Char) : List Char → List (List Char)
  | [] => [[]]
  | c :: rest =>
    let r := splitOnChar sep rest
    if c = sep then [] :: r
    else
      match r with
      | h :: t => (c :: h) :: t
      | [] => [[c]]

/-- Python `s.split('\n')` on a string. -/
def pySplitLines (s : String) : List String :=
  (splitOnChar '\n' s.toList).map String.mk

/-- ASCII lower-casing of one character, as Python `str.lower` acts on the
ASCII range (the repository only lower-cases a console answer that is then
compared against `"y"`/`"yes"`). -/
def pyLowerChar (c : Char) : Char :=
  if 'A' ≤ c && c ≤ 'Z' then Char.ofNat (c.toNat + 32) else c

/-- Python `s.lower()` over ASCII text. -/
def pyLower (s : String) : String :=
  String.mk (s.toList.map pyLowerChar)

/-- Python `version.startswith('v')`. -/
def pyStartswithV (s : String) : Bool :=
  match s.toList with
  | 'v' :: _ => true
  | _ => false

/-- The `v`-prefix normalization in `create_release_tag`
(`build.py` lines 280-281): `if not version.startswith('v'): version = f"v{version}"`. -/
def normalize_version (version : String) : String :=
  if pyStartswithV version then version else "v" ++ version

/-- The subprocess and console interactions of `create_release_tag`
(`build.py` lines 269-328): the stdout of `git tag -l` (or `none` if that
command failed), the success of `git tag -a`, the raw `input()` response to
the push prompt, and the success of `git push origin`. -/
structure TagEnv where
  git_tag_list : Option String
  tag_create_ok : Bool
  push_answer : String
  push_ok : Bool
deriving DecidableEq

/-- Embedding of `BuildManager.create_release_tag` (`build.py` lines
269-328): validate the version format, normalize with a `v` prefix, fail if
listing tags fails or the normalized tag is among
`result.stdout.strip().split('\n')`, fail if tag creation fails, then push
only on a `y`/`yes` answer (after strip+lower), failing if the push fails. -/
def create_release_tag (version : String) (env : TagEnv) : Bool :=
  if !matchVersionFormat version then false
  else
    let version := normalize_version version
    match env.git_tag_list with
    | Option.none => false
    | Option.some out =>
      let existing_tags := pySplitLines (pyStrip out)
      if existing_tags.contains version then false
      else if !env.tag_create_ok then false
      else
        let response := pyLower (pyStrip env.push_answer)
        if response == "y" || response == "yes" then env.push_ok
        else true

/-! ## Theorems -/

/-- `s.split(sep, 1)` succeeds exactly at the first separator: on any
character list containing `sep`, `splitFirst` returns the maximal
separator-free prefix and everything after the first `sep`. -/
theorem splitFirst_eq_of_mem (sep : Char) (cs : List Char) (h : sep ∈ cs) :
    splitFirst sep cs =
      Option.some (cs.takeWhile (fun c => c != sep),
        (cs.dropWhile (fun c => c != sep)).tail) := by
  induction cs with
  | nil => cases h
  | cons c rest ih =>
    by_cases hc : c = sep
    · subst hc
      simp [splitFirst, List.takeWhile_cons, List.dropWhile_cons]
    · have hr : sep ∈ rest := by
        rcases List.mem_cons.mp h with h1 | h2
        · exact absurd h1.symm hc
        · exact h2
      have hb : (c != sep) = true := bne_iff_ne.mpr hc
      simp [splitFirst, hc, ih hr, List.takeWhile_cons, List.dropWhile_cons, hb]

/-- C1: for every non-empty input list `data`, any config (including `None`)
and any debug flag, `process_data(data, config, debug)` raises nothing and
returns the empty mapping `{}`, from any initial logger state. -/
theorem process_data_nonempty_returns_empty (data : List PyValue)
    (config : Option Config) (debug : Bool) (st : LogState) (h : data ≠ []) :
    (process_data data config debug st).1 = Except.ok [] := by
  have hne : data.isEmpty = false := by
    cases data with
    | nil => exact absurd rfl h
    | cons a l => rfl
  cases debug <;> simp [process_data, hne]

/-- Witness for C1: a concrete non-empty call succeeds with `{}`. -/
theorem process_data_nonempty_returns_empty_witness :
    (process_data [PyValue.str "sample"] Option.none false ⟨INFO_LEVEL⟩).1
      = Except.ok [] :=
  process_data_nonempty_returns_empty [PyValue.str "sample"] Option.none false
    ⟨INFO_LEVEL⟩ (List.cons_ne_nil _ _)

/-- C2: on the empty input list, `process_data` raises
`ValueError("Input data cannot be empty")` for every config, every debug
flag and every initial logger state. -/
theorem process_data_empty_raises (config : Option Config) (debug : Bool)
    (st : LogState) :
    (process_data [] config debug st).1
      = Except.error "Input data cannot be empty" := by
  cases debug <;> rfl

/-- Counterexample to C3: with the debug flag set, a call on empty data does
raise the validation error, but it has already mutated the process-wide
logger severity (from `INFO` to `DEBUG`), so observable state is not
unchanged on a failing call. -/
theorem process_data_empty_debug_mutates_logger :
    (process_data [] Option.none true ⟨INFO_LEVEL⟩).1
        = Except.error "Input data cannot be empty"
    ∧ (process_data [] Option.none true ⟨INFO_LEVEL⟩).2 ≠ ⟨INFO_LEVEL⟩ :=
  ⟨rfl, by decide⟩

/-- C3 as amended: a call failing validation changes no state when the debug
flag is clear; when the debug flag is set, the failing call has already set
the logger severity to `DEBUG` before the validation check, and that is its
only state change. -/
theorem process_data_empty_state_change (config : Option Config)
    (st : LogState) :
    (process_data [] config false st).2 = st
    ∧ (process_data [] config true st).2 = ⟨DEBUG_LEVEL⟩ :=
  ⟨rfl, rfl⟩

/-- C9: constructing a `Config` from only `name` and `value` defaults
`options` to `None`; supplying an `options` mapping preserves all three
fields unchanged. -/
theorem config_construction_roundtrip (n : String) (v : ConfigValue)
    (o : List (String × PyValue)) :
    (Config.ofNameValue n v).name = n
    ∧ (Config.ofNameValue n v).value = v
    ∧ (Config.ofNameValue n v).options = Option.none
    ∧ (Config.mk n v (Option.some o)).name = n
    ∧ (Config.mk n v (Option.some o)).value = v
    ∧ (Config.mk n v (Option.some o)).options = Option.some o :=
  ⟨rfl, rfl, rfl, rfl, rfl, rfl⟩

/-- C10: for every `--config` argument containing an `=`, the entry point
builds a `Config` whose `name` is the whitespace-stripped text before the
first `=` and whose `value` is the whitespace-stripped text after it. -/
theorem parse_config_arg_strips (s : String) (h : '=' ∈ s.toList) :
    parse_config_arg s =
      Option.some
        ⟨pyStrip (String.mk (s.toList.takeWhile (fun c => c != '='))),
          ConfigValue.str
            (pyStrip (String.mk ((s.toList.dropWhile (fun c => c != '=')).tail))),
          Option.none⟩ := by
  have hs := splitFirst_eq_of_mem '=' s.toList h
  unfold parse_config_arg
  rw [hs]

/-- Witness for C10: a concrete argument with spaces around both parts. -/
theorem parse_config_arg_strips_witness :
    parse_config_arg " name = value " =
      Option.some ⟨"name", ConfigValue.str "value", Option.none⟩ := by
  rw [parse_config_arg_strips " name = value " (by decide)]
  rfl

/-- Counterexample to C4: no command-line flag of the `all` command makes
`run_full_pipeline` omit the version-check stage — that stage is not
skippable, so not every one of the five stages has its own skip flag. -/
theorem version_stage_not_skippable :
    ¬ ∃ fl : PipelineFlag,
      Stage.version ∉ (run_full_pipeline (setFlag fl) allOkResults).2 := by
  rintro ⟨fl, h⟩
  cases fl <;> exact h (by decide)

/-- C4 as amended: four of the five stages — clean, lint, test, build — are
each individually skippable via their own flag, with exactly that stage
omitted from the trace; the version-check stage is invoked under every
single-flag configuration. -/
theorem four_stages_individually_skippable :
    run_full_pipeline (setFlag PipelineFlag.noClean) allOkResults
        = (true, [Stage.version, Stage.lint, Stage.test, Stage.build])
    ∧ run_full_pipeline (setFlag PipelineFlag.noLint) allOkResults
        = (true, [Stage.clean, Stage.version, Stage.test, Stage.build])
    ∧ run_full_pipeline (setFlag PipelineFlag.noTest) allOkResults
        = (true, [Stage.clean, Stage.version, Stage.lint, Stage.build])
    ∧ run_full_pipeline (setFlag PipelineFlag.noBuild) allOkResults
        = (true, [Stage.clean, Stage.version, Stage.lint, Stage.test])
    ∧ ∀ fl : PipelineFlag,
        Stage.version ∈ (run_full_pipeline (setFlag fl) allOkResults).2 := by
  refine ⟨by decide, by decide, by decide, by decide, ?_⟩
  intro fl
  cases fl <;> decide

/-- C5: with no skip flag set (any release mode), if the lint stage fails
then the test and build stages are never invoked, for every combination of
the other stage outcomes. -/
theorem lint_failure_fail_fast (r : StageResults) (rel : Bool)
    (h : r.lint = false) :
    Stage.test ∉ (run_full_pipeline ⟨false, false, false, false, rel⟩ r).2
    ∧ Stage.build ∉ (run_full_pipeline ⟨false, false, false, false, rel⟩ r).2 := by
  rcases r with ⟨c, v, l, t, b⟩
  have hl : l = false := h
  subst hl
  cases c <;> cases v <;> cases t <;> cases b <;> cases rel <;> decide

/-- Witness for C5: a concrete run with only the lint stage failing. -/
theorem lint_failure_fail_fast_witness :
    Stage.test ∉ (run_full_pipeline ⟨false, false, false, false, false⟩
        ⟨true, true, false, true, true⟩).2
    ∧ Stage.build ∉ (run_full_pipeline ⟨false, false, false, false, false⟩
        ⟨true, true, false, true, true⟩).2 :=
  lint_failure_fail_fast ⟨true, true, false, true, true⟩ false rfl

/-- Counterexample to C6: with only the skip-test flag set, a failing
version check (the `git status` subprocess failing) stops the pipeline, so
the lint and build stages are not invoked — they are not invoked in every
skip-test run, as the claim requires. -/
theorem skip_test_lint_build_not_always_invoked :
    (run_full_pipeline ⟨false, false, true, false, false⟩
        ⟨true, false, true, true, true⟩).2 = [Stage.clean, Stage.version]
    ∧ Stage.lint ∉ (run_full_pipeline ⟨false, false, true, false, false⟩
        ⟨true, false, true, true, true⟩).2
    ∧ Stage.build ∉ (run_full_pipeline ⟨false, false, true, false, false⟩
        ⟨true, false, true, true, true⟩).2 := by
  decide

/-- C6 as amended: with the skip-test flag set and no other skip flag, the
test stage is never invoked whatever the stage outcomes; and when every
invoked stage succeeds, the stages invoked are exactly clean, version-check,
lint, build, in that order. -/
theorem skip_test_trace (r : StageResults) (rel : Bool) :
    Stage.test ∉ (run_full_pipeline ⟨false, false, true, false, rel⟩ r).2
    ∧ (run_full_pipeline ⟨false, false, true, false, rel⟩ allOkResults).2
        = [Stage.clean, Stage.version, Stage.lint, Stage.build] := by
  rcases r with ⟨c, v, l, t, b⟩
  cases c <;> cases v <;> cases l <;> cases t <;> cases b <;> cases rel <;> decide

/-- C7: inside `run_tests`, whenever dependency installation and the test
suite succeed the method returns success, for both outcomes of the benchmark
run — a benchmark failure only downgrades to a logged warning. -/
theorem run_tests_benchmark_tolerant (e : TestsEnv)
    (h1 : e.deps_install = true) (h2 : e.pytest = true) :
    (run_tests e).1 = true := by
  rcases e with ⟨d, p, b⟩
  have hd : d = true := h1
  have hp : p = true := h2
  subst hd
  subst hp
  cases b <;> rfl

/-- Witness for C7: concrete runs with the benchmark failing and passing. -/
theorem run_tests_benchmark_tolerant_witness :
    (run_tests ⟨true, true, false⟩).1 = true
    ∧ (run_tests ⟨true, true, true⟩).1 = true :=
  ⟨run_tests_benchmark_tolerant ⟨true, true, false⟩ rfl rfl,
    run_tests_benchmark_tolerant ⟨true, true, true⟩ rfl rfl⟩

/-- C8: `create_release_tag` validates the version against the pattern
`^v?[0-9]+\.[0-9]+\.[0-9]+(-[a-zA-Z0-9]+)?$` — accepting `1.2.3`, `v1.2.3`,
`1.2.3-beta1`, rejecting `1.2`, `abc` and the empty string, and failing on
every invalid version — normalizes by prefixing `v` exactly when absent, and
fails whenever the normalized tag is among the existing tags. -/
theorem create_release_tag_contract :
    matchVersionFormat "1.2.3" = true
    ∧ matchVersionFormat "v1.2.3" = true
    ∧ matchVersionFormat "1.2.3-beta1" = true
    ∧ matchVersionFormat "1.2" = false
    ∧ matchVersionFormat "abc" = false
    ∧ matchVersionFormat "" = false
    ∧ (∀ (v : String) (env : TagEnv), matchVersionFormat v = false →
        create_release_tag v env = false)
    ∧ (∀ v : String, pyStartswithV v = false → normalize_version v = "v" ++ v)
    ∧ (∀ v : String, pyStartswithV v = true → normalize_version v = v)
    ∧ (∀ (v : String) (env : TagEnv) (out : String),
        env.git_tag_list = Option.some out →
        (pySplitLines (pyStrip out)).contains (normalize_version v) = true →
        create_release_tag v env = false) := by
  refine ⟨by decide, by decide, by decide, by decide, by decide, by decide,
    ?_, ?_, ?_, ?_⟩
  · intro v env h
    simp [create_release_tag, h]
  · intro v h
    simp [normalize_version, h]
  · intro v h
    simp [normalize_version, h]
  · intro v env out hg hc
    have hmem : normalize_version v ∈ pySplitLines (pyStrip out) := by
      simpa using hc
    cases hm : matchVersionFormat v
    · simp [create_release_tag, hm]
    · simp [create_release_tag, hm, hg, hmem]

/-- Witness for C8: an invalid version fails, a bare version is normalized
with a `v` prefix, and a duplicate of an existing tag fails. -/
theorem create_release_tag_contract_witness :
    create_release_tag "abc" ⟨Option.some "", true, "", true⟩ = false
    ∧ normalize_version "1.2.3" = "v" ++ "1.2.3"
    ∧ create_release_tag "1.2.3" ⟨Option.some "v1.2.3", true, "", true⟩ = false :=
  ⟨create_release_tag_contract.2.2.2.2.2.2.1 "abc"
      ⟨Option.some "", true, "", true⟩ (by decide),
    create_release_tag_contract.2.2.2.2.2.2.2.1 "1.2.3" (by decide),
    create_release_tag_contract.2.2.2.2.2.2.2.2.2 "1.2.3"
      ⟨Option.some "v1.2.3", true, "", true⟩ "v1.2.3" rfl (by decide)⟩
